import Mathlib

/-!
Verification of the thumbnailer library's deferred operation pipeline.

The development shallowly embeds the pipeline code:
* `src/thumbnail/data.rs` (lazy image data, `apply_ops_list`),
* `src/thumbnail/mod.rs` (`Thumbnail::apply`),
* `src/thumbnail/collection.rs` (`ThumbnailCollection::apply`, `apply_store_keep`),
* `src/target.rs` (`Target::store`, `compute_and_create_path`, `ensure_ext`, `store_*`),
* `src/thumbnail/operations/{crop,resize,combine,exif}.rs`.

The image buffer of queue-level functions is an abstract type `α`: the pixel
manipulation of each operation is delegated to the external `image` crate, so
at the queue level an operation is just a state transformer on the buffer.
Pixel-level operations (combine, crop, resize) get concrete models further
down. `f32` arithmetic of the source is idealized as exact rational
arithmetic; the `as u32` / `as u8` casts are modeled as floor-and-saturate,
which is the Rust semantics of float-to-integer `as` casts.
-/

namespace Thumbnailer

/-- The `FileError` enum of `src/errors.rs` (payloads reduced to the path
strings the claims talk about; `io::Error` payloads carry no structure we
need). -/
inductive FileError where
  | globErr : FileError
  | notFound (path : String) : FileError
  | notSupported (path : String) : FileError
  | ioErr : FileError
  | unknownErr : FileError
deriving DecidableEq

/-- One queued operation, `Box<dyn Operation>` of
`src/thumbnail/operations/mod.rs`. The trait used by `apply_ops_list` is
`fn apply(&self, image: &mut DynamicImage) -> bool`: a mutation of the buffer
plus a success flag. Every concrete operation of the repository performs its
parameter checks before assigning `*image = ...`, so a failing application
leaves the buffer unchanged; `run` returning `none` models that failure.
`tag` stands for the operation's identity (its parameters), which the error
type stores via `operation.clone()`. -/
structure Op (α : Type) where
  tag : Nat
  run : α → Option α

/-- The `CollectionError` struct of `src/errors.rs`: successful output paths,
per-item store errors, per-item operation errors. An operation error carries
the failing operation (`OperationError::new(operation.clone())` in
`src/thumbnail/data.rs`). -/
structure CollectionErr (α : Type) where
  paths : List String
  storeErrors : List FileError
  operationErrors : List (Op α)

/-- The `ApplyError` enum of `src/errors.rs` as used by
`src/thumbnail/data.rs` and `src/thumbnail/collection.rs`. -/
inductive ApplyError (α : Type) where
  | opErr (op : Op α) : ApplyError α
  | storeErr (e : FileError) : ApplyError α
  | collErr (c : CollectionErr α) : ApplyError α
  | loadErr : ApplyError α

/-- The `ImageData` enum of `src/thumbnail/data.rs`: either an unopened file
handle (whose eventual decode result we record as `decoded`, `none` meaning
the bytes do not decode) or a resident in-memory image. -/
inductive ImageData (α : Type) where
  | file (decoded : Option α) : ImageData α
  | image (i : α) : ImageData α

/-- The `ThumbnailData` struct of `src/thumbnail/data.rs`: source path plus
lazy image data. -/
structure ThumbnailData (α : Type) where
  path : String
  image : ImageData α

/-- `ThumbnailData::get_dyn_image` (`src/thumbnail/data.rs` lines 109-120):
if the data still holds a file handle it decodes now, replacing the handle by
the resident image; a decode failure surfaces as an error (`none`) and leaves
the state as it was. Returns the resident buffer together with the updated
state. -/
def getDynImage {α : Type} (d : ThumbnailData α) : Option (α × ThumbnailData α) :=
  match d with
  | ⟨_, .file none⟩ => none
  | ⟨p, .file (some i)⟩ => some (i, ⟨p, .image i⟩)
  | ⟨p, .image i⟩ => some (i, ⟨p, .image i⟩)

/-- The FIFO loop of `ThumbnailData::apply_ops_list`
(`src/thumbnail/data.rs` lines 167-175): run the operations in list order on
the buffer; stop at the first operation whose `apply` returns `false`,
reporting that operation; otherwise return the fully transformed buffer. -/
def runOps {α : Type} (ops : List (Op α)) (i : α) : α × Option (Op α) :=
  match ops with
  | [] => (i, none)
  | op :: rest =>
    match op.run i with
    | some j => runOps rest j
    | none => (i, some op)

/-- `ThumbnailData::apply_ops_list` (`src/thumbnail/data.rs` lines 159-177):
force residency (`assert_dynamic_image_loaded`), failing with
`ApplyError::LoadingImageError` if the image cannot be decoded; then execute
the operation list FIFO, returning at the first failure an
`ApplyError::OperationError` carrying that operation. The state after the
call keeps whatever transformations completed. -/
def applyOpsList {α : Type} (d : ThumbnailData α) (ops : List (Op α)) :
    ThumbnailData α × Except (ApplyError α) Unit :=
  match getDynImage d with
  | none => (d, .error .loadErr)
  | some (i, d1) =>
    match runOps ops i with
    | (j, none) => (⟨d1.path, .image j⟩, .ok ())
    | (j, some op) => (⟨d1.path, .image j⟩, .error (.opErr op))

/-- The `Thumbnail` struct of `src/thumbnail/mod.rs`: image data plus the
queued operation list. -/
structure Thumbnail (α : Type) where
  data : ThumbnailData α
  ops : List (Op α)

/-- `Thumbnail::apply` (`src/thumbnail/mod.rs` lines 153-159):
`self.data.apply_ops_list(&self.ops)?; self.ops.clear(); Ok(self)` — the
queue is cleared only when `apply_ops_list` succeeded; on failure the `?`
returns early and the queue keeps its operations, while the data keeps the
partially transformed buffer. -/
def Thumbnail.apply {α : Type} (t : Thumbnail α) : Thumbnail α × Except (ApplyError α) Unit :=
  match applyOpsList t.data t.ops with
  | (d, .ok ()) => (⟨d, []⟩, .ok ())
  | (d, .error e) => (⟨d, t.ops⟩, .error e)

/-- The `ThumbnailCollection` struct of `src/thumbnail/collection.rs`:
member image data plus one shared operation queue. -/
structure ThumbnailCollection (α : Type) where
  images : List (ThumbnailData α)
  ops : List (Op α)

/-- `ThumbnailCollection::apply` (`src/thumbnail/collection.rs` lines
145-180): snapshot and clear the queue, run `apply_ops_list` on every member
(rayon's ordered parallel map is modeled by `List.map`), keep of the member
errors only the `ApplyError::OperationError` ones, and return `Ok` exactly
when `results.is_empty()` — i.e. when the collection has no members —
otherwise a `CollectionError` with empty path and store lists. -/
def ThumbnailCollection.apply {α : Type} (c : ThumbnailCollection α) :
    ThumbnailCollection α × Except (ApplyError α) Unit :=
  let ops := c.ops
  let pairs := c.images.map (fun d => applyOpsList d ops)
  let images1 := pairs.map Prod.fst
  let results : List (Option (ApplyError α)) :=
    pairs.map (fun p => match p.2 with | .ok _ => none | .error e => some e)
  let errors : List (Op α) := results.filterMap (fun r =>
    match r with
    | some (.opErr e) => some e
    | _ => none)
  if results.isEmpty then (⟨images1, []⟩, .ok ())
  else (⟨images1, []⟩, .error (.collErr ⟨[], [], errors⟩))

/-- The body of one `apply_store_keep` worker
(`src/thumbnail/collection.rs` lines 194-202): apply the snapshotted queue to
the member, then store it tagged with its index; a store failure is wrapped
as `ApplyError::StoreError`. `storeFn` abstracts `target.store(data, Some n)`
(filesystem and encoders are external). Returns the updated member state and
its result. -/
def memberApplyStore {α : Type} (storeFn : ThumbnailData α → Nat → Except FileError (List String))
    (ops : List (Op α)) (n : Nat) (d : ThumbnailData α) :
    ThumbnailData α × Except (ApplyError α) (List String) :=
  match applyOpsList d ops with
  | (d1, .error e) => (d1, .error e)
  | (d1, .ok _) =>
    match storeFn d1 n with
    | .ok ps => (d1, .ok ps)
    | .error e => (d1, .error (.storeErr e))

/-- `ThumbnailCollection::apply_store_keep` (`src/thumbnail/collection.rs`
lines 186-229): snapshot and clear the queue, run apply+store per member in
index order, then partition the member results: successful paths are
concatenated, `StoreError` and `OperationError` payloads go to their own
lists, and every other error variant is dropped by the `_ => {}` arm.
`Ok(paths)` is returned exactly when both error lists are empty. -/
def ThumbnailCollection.applyStoreKeep {α : Type}
    (storeFn : ThumbnailData α → Nat → Except FileError (List String))
    (c : ThumbnailCollection α) :
    ThumbnailCollection α × Except (ApplyError α) (List String) :=
  let ops := c.ops
  let pairs := c.images.enum.map (fun nd => memberApplyStore storeFn ops nd.1 nd.2)
  let images1 := pairs.map Prod.fst
  let results := pairs.map Prod.snd
  let paths := results.foldl (fun acc r => match r with | .ok p => acc ++ p | .error _ => acc) []
  let storeErrors := results.filterMap (fun r =>
    match r with
    | .error (.storeErr e) => some e
    | _ => none)
  let operationErrors := results.filterMap (fun r =>
    match r with
    | .error (.opErr e) => some e
    | _ => none)
  if storeErrors.isEmpty && operationErrors.isEmpty then (⟨images1, []⟩, .ok paths)
  else (⟨images1, []⟩, .error (.collErr ⟨paths, storeErrors, operationErrors⟩))

/-! ### The Exif operation and panic-aware queue execution

`ExifOp::apply` (`src/thumbnail/operations/exif.rs` lines 17-24) is
`unimplemented!()` for every policy and every image: it diverges by panic
rather than returning. To state that, operation application gets a third
outcome besides success and typed failure. -/

/-- The `Exif` policy enum of `src/generic.rs`. -/
inductive Exif where
  | keep : Exif
  | clear : Exif
  | whitelist (tags : List Nat) : Exif
  | blacklist (tags : List Nat) : Exif

/-- Outcome of one panic-aware operation application: a transformed buffer,
a typed failure carrying the failing operation's tag, or a panic. -/
inductive PStep (α : Type) where
  | ok (i : α) : PStep α
  | fail (tag : Nat) : PStep α
  | panic : PStep α
deriving DecidableEq

/-- A queued operation in the panic-aware model. -/
structure POp (α : Type) where
  tag : Nat
  run : α → PStep α

/-- `ExifOp::apply` (`src/thumbnail/operations/exif.rs` lines 17-24): the
body is `unimplemented!()`, so the call panics for every policy and buffer,
never producing a return value. -/
def exifApply {α : Type} (_policy : Exif) (_img : α) : PStep α :=
  .panic

/-- The `ExifOp` struct of `src/thumbnail/operations/exif.rs` packaged as a
queued operation with identity `tag`. -/
def exifPOp {α : Type} (tag : Nat) (policy : Exif) : POp α :=
  ⟨tag, exifApply policy⟩

/-- Outcome of running a whole queue in the panic-aware model. -/
inductive PRun (α : Type) where
  | ok (i : α) : PRun α
  | fail (tag : Nat) : PRun α
  | panic : PRun α
deriving DecidableEq

/-- The FIFO loop of `ThumbnailData::apply_ops_list`
(`src/thumbnail/data.rs` lines 167-175) in the panic-aware model: a panic
raised by an operation propagates out of the loop, a typed failure stops the
loop with that operation's identity. -/
def runOpsP {α : Type} (ops : List (POp α)) (i : α) : PRun α :=
  match ops with
  | [] => .ok i
  | op :: rest =>
    match op.run i with
    | .ok j => runOpsP rest j
    | .fail t => .fail t
    | .panic => .panic

/-! ### Pixel-level model for the Combine operation -/

/-- One RGBA pixel as the four channels `pixel[0] .. pixel[3]` of the
`image` crate's `Rgba<u8>`. -/
structure Pixel where
  c0 : Nat
  c1 : Nat
  c2 : Nat
  c3 : Nat
deriving DecidableEq

/-- Channel read `pixel[index]`. -/
def Pixel.chan (p : Pixel) (i : Nat) : Nat :=
  match i with
  | 0 => p.c0
  | 1 => p.c1
  | 2 => p.c2
  | _ => p.c3

/-- Channel write `pixel[index] = v`. -/
def Pixel.setChan (p : Pixel) (i : Nat) (v : Nat) : Pixel :=
  match i with
  | 0 => ⟨v, p.c1, p.c2, p.c3⟩
  | 1 => ⟨p.c0, v, p.c2, p.c3⟩
  | 2 => ⟨p.c0, p.c1, v, p.c3⟩
  | _ => ⟨p.c0, p.c1, p.c2, v⟩

/-- Rust's `as u8` cast on a nonnegative float value: truncate toward zero
and saturate at 255 (float arithmetic idealized as exact rationals). -/
def f32toU8 (q : ℚ) : Nat :=
  min (Int.toNat (Int.floor q)) 255

/-- The straight-alpha blend of one channel,
`alpha * pixel[index] as f32 + alpha_inv * background_pixel[index] as f32`
cast to `u8` (`src/thumbnail/operations/combine.rs` lines 127-133), with
`alpha = pixel[3] as f32 / 255.0`. -/
def blendChannel (src dst : Pixel) (i : Nat) : Nat :=
  let alpha : ℚ := (src.chan 3 : ℚ) / 255
  f32toU8 (alpha * (src.chan i : ℚ) + (1 - alpha) * (dst.chan i : ℚ))

/-- The per-pixel update of `CombineOp::apply`: `for index in 0..2` writes
channels 0 and 1 with the blended value
(`src/thumbnail/operations/combine.rs` lines 130-134, identically lines
151-155 for the RGB branch). -/
def blendPixel (src dst : Pixel) : Pixel :=
  (List.range 2).foldl (fun d i => d.setChan i (blendChannel src d i)) dst

/-- A pixel buffer: dimensions plus row-major rows of pixels. -/
structure ImageBuf where
  width : Nat
  height : Nat
  pix : List (List Pixel)
deriving DecidableEq

/-- Pixel read at `(x, y)` (out-of-range reads yield a zero pixel; all uses
are guarded by the bounds checks of the source). -/
def ImageBuf.getPix (b : ImageBuf) (x y : Nat) : Pixel :=
  (((b.pix.get? y).bind fun row => row.get? x).getD ⟨0, 0, 0, 0⟩)

/-- Pixel write at `(x, y)` (`get_pixel_mut` assignment). -/
def ImageBuf.setPix (b : ImageBuf) (x y : Nat) (p : Pixel) : ImageBuf :=
  ⟨b.width, b.height, b.pix.set y (((b.pix.get? y).getD []).set x p)⟩

/-- The `BoxPosition` enum of `src/generic.rs`. -/
inductive BoxPosition where
  | topLeft (x y : Nat) : BoxPosition
  | topRight (x y : Nat) : BoxPosition
  | bottomLeft (x y : Nat) : BoxPosition
  | bottomRight (x y : Nat) : BoxPosition

/-- The `OperationErrorInfo` enum of `src/errors.rs` (plus the
`RgbImageConversionFailure` variant referenced by
`src/thumbnail/operations/resize.rs`). -/
inductive OperationErrorInfo where
  | coordinatesOutOfRange : OperationErrorInfo
  | imageBufferConversionFailure : OperationErrorInfo
  | fontLoadError : OperationErrorInfo
  | rgbImageConversionFailure : OperationErrorInfo
deriving DecidableEq

/-- The anchor arithmetic of `CombineOp::apply`
(`src/thumbnail/operations/combine.rs` lines 79-112): derive the top-left
placement origin of the overlay from the anchor, failing with
`CoordinatesOutOfRange` when the anchored corner would put the origin below
zero in `u32` arithmetic. -/
def combinePos (ow oh : Nat) (pos : BoxPosition) : Except OperationErrorInfo (Nat × Nat) :=
  match pos with
  | .topLeft x y => .ok (x, y)
  | .topRight x y => if ow ≤ x then .ok (x - ow, y) else .error .coordinatesOutOfRange
  | .bottomLeft x y => if oh ≤ y then .ok (x, y - oh) else .error .coordinatesOutOfRange
  | .bottomRight x y =>
    if ow ≤ x ∧ oh ≤ y then .ok (x - ow, y - oh) else .error .coordinatesOutOfRange

/-- `CombineOp::apply` (`src/thumbnail/operations/combine.rs` lines
114-168): after the anchor check, every overlay pixel `(x, y)` whose
destination `(x + x0, y + y0)` lies inside the background is composited into
the background via `blendPixel`; destination pixels outside the overlay's
footprint are untouched. The RGBA and RGB branches of the source run the
same loop body, so one model covers both. -/
def combineApply (overlay : ImageBuf) (pos : BoxPosition) (bg : ImageBuf) :
    Except OperationErrorInfo ImageBuf :=
  match combinePos overlay.width overlay.height pos with
  | .error e => .error e
  | .ok (x0, y0) =>
    .ok (((List.range overlay.height).flatMap fun y =>
          (List.range overlay.width).map fun x => (x, y)).foldl
      (fun acc xy =>
        let xc := xy.1 + x0
        let yc := xy.2 + y0
        if xc < bg.width ∧ yc < bg.height then
          acc.setPix xc yc (blendPixel (overlay.getPix xy.1 xy.2) (acc.getPix xc yc))
        else acc)
      bg)

/-! ### Crop and Resize dimension arithmetic -/

/-- Rust's `as u32` cast on a nonnegative float value: truncate toward zero
and saturate at `u32::MAX` (float arithmetic idealized as exact rationals). -/
def f32toU32 (q : ℚ) : Nat :=
  min (Int.toNat (Int.floor q)) (2 ^ 32 - 1)

/-- The `Crop` enum of `src/generic.rs` (the `Ratio` payload is `f32`,
modeled as ℚ). -/
inductive Crop where
  | box (x y w h : Nat) : Crop
  | ratio (wr hr : ℚ) : Crop

/-- The crop rectangle `(x, y, width, height)` computed by `CropOp::apply`
(`src/thumbnail/operations/crop.rs` lines 52-77) for an image of dimensions
`(W, H)`; the rectangle is then handed to `image.crop`. For `Ratio`, compare
the old aspect `W / H` with the requested aspect `wr / hr`; shrink and
center the dimension that is too large. -/
def cropRect (c : Crop) (W H : Nat) : Nat × Nat × Nat × Nat :=
  match c with
  | .box x y w h => (x, y, w, h)
  | .ratio wr hr =>
    let rOld : ℚ := (W : ℚ) / (H : ℚ)
    let rNew : ℚ := wr / hr
    if rOld ≤ rNew then
      let hNew := f32toU32 (rOld / rNew * (H : ℚ))
      (0, (H - hNew) / 2, W, hNew)
    else
      let wNew := f32toU32 (rNew / rOld * (W : ℚ))
      ((W - wNew) / 2, 0, wNew, H)

/-- The `Resize` enum of `src/generic.rs`. -/
inductive Resize where
  | height (h : Nat) : Resize
  | width (w : Nat) : Resize
  | boundingBox (w h : Nat) : Resize
  | exactBox (w h : Nat) : Resize

/-- The `(nwidth, nheight)` arguments handed to the `image` crate by
`ResizeOp::apply` (`src/thumbnail/operations/resize.rs` lines 76-113) for an
image of dimensions `(W, H)`, with `aspect_ratio = W / H`. For `Height` and
`Width` the missing dimension is the ratio-derived value truncated to `u32`
plus one; both the filtered and the unfiltered branch of the source compute
the same pair. -/
def resizeRequest (sz : Resize) (W H : Nat) : Nat × Nat :=
  let aspect : ℚ := (W : ℚ) / (H : ℚ)
  match sz with
  | .height y => (f32toU32 (aspect * (y : ℚ)) + 1, y)
  | .width x => (x, f32toU32 ((x : ℚ) / aspect) + 1)
  | .boundingBox x y => (x, y)
  | .exactBox x y => (x, y)

/-! ### Target: path resolution, extension fixing, and the store loop -/

/-- The `TargetFormat` enum of `src/target.rs`. -/
inductive TargetFormat where
  | jpeg : TargetFormat
  | png : TargetFormat
  | tiff : TargetFormat
  | bmp : TargetFormat
  | gif : TargetFormat
deriving DecidableEq

/-- The `TargetItem` struct of `src/target.rs`: one destination path plus
the format to encode with. -/
structure TargetItem where
  path : String
  method : TargetFormat
deriving DecidableEq

/-- Rust's `str::ends_with(char)`: does the string end with the given
character. -/
def endsWithChar (s : String) (c : Char) : Bool :=
  s.data.getLast? == some c

/-- `PathBuf::join` of a relative file stem onto a directory path. -/
def joinStem (dst stem : String) : String :=
  if endsWithChar dst '/' || endsWithChar dst '\\' then dst ++ stem else dst ++ "/" ++ stem

/-- `compute_and_create_path` (`src/target.rs` lines 177-200). The
filesystem query `dst.is_dir()` and the path library's `Path::parent` are
external, passed in as `isDir` and `parent`; `srcStem` is
`src.file_stem()`. Returns the resolved path together with the list of
`create_dir_all` calls performed (each call creates the directory and its
parents). -/
def computeAndCreatePath (isDir : String → Bool) (parent : String → Option String)
    (dst : String) (srcStem : Option String) : String × List String :=
  let filename := srcStem.getD "NAME_MISSING"
  if isDir dst then (joinStem dst filename, [])
  else if endsWithChar dst '/' || endsWithChar dst '\\' then (joinStem dst filename, [dst])
  else (dst, match parent dst with | some p => [p] | none => [])

/-- `ensure_ext` (`src/target.rs` lines 206-211): does the actual extension
(`Path::extension`, `none` when the path has no extension) match the
expected one, comparing the lowercased actual extension against the
expected string. -/
def ensureExt (ext : Option String) (expected : String) : Bool :=
  match ext with
  | none => false
  | some e => e.toLower == expected

/-- The extension-fixing step shared by `store_jpg`, `store_png`,
`store_tiff`, `store_bmp`, `store_gif` (`src/target.rs` lines 219-314):
when the destination's extension matches none of the format's accepted
extensions, `set_extension` replaces it by the canonical one, otherwise the
path is used unchanged. Modeled on the extension component of the path. -/
def storeFixExt (fmt : TargetFormat) (ext : Option String) : Option String :=
  match fmt with
  | .jpeg => if !ensureExt ext "jpg" && !ensureExt ext "jpeg" then some "jpg" else ext
  | .png => if !ensureExt ext "png" then some "png" else ext
  | .tiff => if !ensureExt ext "tif" && !ensureExt ext "tiff" then some "tiff" else ext
  | .bmp => if !ensureExt ext "bmp" then some "bmp" else ext
  | .gif => if !ensureExt ext "gif" then some "gif" else ext

/-- The canonical extension each format's store function writes, as the
claim states it. -/
def canonicalExt (fmt : TargetFormat) : String :=
  match fmt with
  | .jpeg => "jpg"
  | .png => "png"
  | .tiff => "tiff"
  | .bmp => "bmp"
  | .gif => "gif"

/-- The accepted (already-matching) extensions per format, as the claim
states them: jpg/jpeg for Jpeg, png, tiff/tif for Tiff, bmp, gif. -/
def claimAliases (fmt : TargetFormat) : List String :=
  match fmt with
  | .jpeg => ["jpg", "jpeg"]
  | .png => ["png"]
  | .tiff => ["tif", "tiff"]
  | .bmp => ["bmp"]
  | .gif => ["gif"]

/-- The claim's matching predicate: the existing extension matches the
declared format under case-insensitive comparison. -/
def claimExtMatches (fmt : TargetFormat) (ext : Option String) : Bool :=
  match ext with
  | none => false
  | some e => (claimAliases fmt).contains e.toLower

/-- The `for item in &self.items` loop of `Target::store` (`src/target.rs`
lines 129-157) translated to recursion. Each iteration resolves the path,
applies the optional count suffix, and encodes; all of that is abstracted
into `stepFn : TargetItem → Except FileError String` (returning the path
actually written). Every fallible step is exited with `?`, so the first
failing item aborts the loop and its error is returned unchanged. The first
component of the result records the items whose iteration was executed, in
order. -/
def targetStore (stepFn : TargetItem → Except FileError String) (items : List TargetItem) :
    List TargetItem × Except FileError (List String) :=
  match items with
  | [] => ([], .ok [])
  | it :: rest =>
    match stepFn it with
    | .error e => ([it], .error e)
    | .ok p =>
      let r := targetStore stepFn rest
      (it :: r.1, match r.2 with | .ok ps => .ok (p :: ps) | .error e => .error e)

/-! ### Helper lemmas -/

/-- Is a member result an `ApplyError::OperationError`? -/
def errIsOp {α β : Type} : Except (ApplyError α) β → Bool :=
  fun r => match r with
  | .error (.opErr _) => true
  | _ => false

/-- Is a member result an `ApplyError::StoreError`? -/
def errIsStore {α β : Type} : Except (ApplyError α) β → Bool :=
  fun r => match r with
  | .error (.storeErr _) => true
  | _ => false

lemma length_filterMap_eq_countP {β γ : Type} (f : β → Option γ) (l : List β) :
    (l.filterMap f).length = l.countP (fun b => (f b).isSome) := by
  induction l with
  | nil => rfl
  | cons a tl ih => cases h : f a <;> simp [List.filterMap_cons, h, List.countP_cons, ih]

lemma runOps_append_fail {α : Type} (pre : List (Op α)) (f : Op α) (rest : List (Op α))
    (i j : α) (hpre : runOps pre i = (j, none)) (hf : f.run j = none) :
    runOps (pre ++ f :: rest) i = (j, some f) := by
  induction pre generalizing i with
  | nil =>
    simp only [runOps] at hpre
    cases hpre
    simp [runOps, hf]
  | cons op tl ih =>
    simp only [runOps, List.cons_append] at hpre ⊢
    cases h : op.run i with
    | some k =>
      rw [h] at hpre
      exact ih k hpre
    | none =>
      rw [h] at hpre
      cases hpre

/-! ### Claim theorems -/

/-- C10: `ExifOp::apply` is `unimplemented!()`: it panics for every policy
variant and every image buffer instead of returning, and running any queue
that contains an Exif operation either stops strictly before it (with the
prior operations' own outcome) or panics at it — it never yields a typed
failure for the Exif operation and never completes past it. -/
theorem exif_apply_always_panics {α : Type} (tag : Nat) (policy : Exif)
    (pre post : List (POp α)) (i : α) :
    exifApply (α := α) policy i = .panic ∧
    runOpsP (pre ++ exifPOp tag policy :: post) i =
      (match runOpsP pre i with
       | .ok _ => PRun.panic
       | r => r) := by
  refine ⟨rfl, ?_⟩
  induction pre generalizing i with
  | nil => rfl
  | cons op tl ih =>
    simp only [List.cons_append, runOpsP]
    cases op.run i with
    | ok j => exact ih j
    | fail t => rfl
    | panic => rfl

/-- C4: `Thumbnail::apply` forces residency, executes the queue FIFO against
the buffer, and (a) on full success clears the queue and keeps the fully
transformed buffer, (b) on the first failing operation surfaces that
operation's failure, keeps the buffer produced by the operations before it
(no rollback), and leaves the queue untouched. -/
theorem thumbnail_apply_fifo {α : Type} (t : Thumbnail α) (i : α) (d1 : ThumbnailData α)
    (hload : getDynImage t.data = some (i, d1)) :
    (∀ j, runOps t.ops i = (j, none) →
        t.apply = (⟨⟨d1.path, .image j⟩, []⟩, .ok ())) ∧
    (∀ pre f rest j, t.ops = pre ++ f :: rest → runOps pre i = (j, none) → f.run j = none →
        t.apply = (⟨⟨d1.path, .image j⟩, t.ops⟩, .error (.opErr f))) := by
  constructor
  · intro j hj
    simp only [Thumbnail.apply, applyOpsList, hload, hj]
  · intro pre f rest j hops hpre hf
    have hrun : runOps t.ops i = (j, some f) := by
      rw [hops]
      exact runOps_append_fail pre f rest i j hpre hf
    simp only [Thumbnail.apply, applyOpsList, hload, hrun]

/-- Concrete run of C4's failure branch: three queued operations on the
resident buffer `5`, the second of which fails; `apply` reports the second
operation, the buffer holds the result of the first operation only, and the
queue still holds all three operations. -/
def c4opInc : Op Nat := ⟨0, fun n => some (n + 1)⟩

/-- The failing middle operation of the C4 witness. -/
def c4opFail : Op Nat := ⟨1, fun _ => none⟩

/-- The never-reached last operation of the C4 witness. -/
def c4opDouble : Op Nat := ⟨2, fun n => some (n * 2)⟩

/-- The C4 witness thumbnail: resident buffer `5`, queue of three operations. -/
def c4thumb : Thumbnail Nat :=
  ⟨⟨"img.png", .image 5⟩, [c4opInc, c4opFail, c4opDouble]⟩

/-- Witness for C4: evaluating `Thumbnail::apply` on `c4thumb` hits the
failing second operation: buffer `6`, queue preserved, error carries the
failing operation. -/
theorem thumbnail_apply_fifo_witness :
    c4thumb.apply = (⟨⟨"img.png", .image 6⟩, c4thumb.ops⟩, .error (.opErr c4opFail)) :=
  (thumbnail_apply_fifo c4thumb 5 ⟨"img.png", .image 5⟩ rfl).2
    [c4opInc] c4opFail [c4opDouble] 6 rfl rfl rfl

/-- C1: evaluating `ThumbnailCollection::apply` on a one-member collection
whose member succeeds (empty queue, resident image): instead of the success
the claim requires, the code returns a `CollectionError` with all three
lists empty, because the `Ok` branch tests `results.is_empty()` — whether
the collection has members — rather than whether any errors occurred. -/
theorem collection_apply_error_on_full_success :
    (ThumbnailCollection.apply (α := Nat) ⟨[⟨"a.png", .image 0⟩], []⟩).2
      = .error (.collErr ⟨[], [], []⟩) := rfl

/-- C9: in the aggregate `CollectionError` returned by
`ThumbnailCollection::apply` and `apply_store_keep`, only operation errors
and store errors are collected: the error lists have exactly one entry per
member failing with an operation error (respectively store error), so a
member that fails with a load error (`ApplyError::LoadingImageError`, the
`_ => ...` match arms) contributes no entry and is silently dropped from the
report. -/
theorem load_errors_dropped {α : Type} (images : List (ThumbnailData α)) (ops : List (Op α)) :
    (∀ P S E, (ThumbnailCollection.apply ⟨images, ops⟩).2 = .error (.collErr ⟨P, S, E⟩) →
      P = [] ∧ S = [] ∧ E.length = images.countP (fun d => errIsOp (applyOpsList d ops).2))
    ∧ (∀ storeFn P S E,
        (ThumbnailCollection.applyStoreKeep storeFn ⟨images, ops⟩).2 = .error (.collErr ⟨P, S, E⟩) →
        S.length = images.enum.countP (fun nd => errIsStore (memberApplyStore storeFn ops nd.1 nd.2).2)
        ∧ E.length = images.enum.countP (fun nd => errIsOp (memberApplyStore storeFn ops nd.1 nd.2).2)) := by
  constructor
  · intro P S E h
    simp only [ThumbnailCollection.apply] at h
    split at h
    · simp at h
    · simp only [Except.error.injEq, ApplyError.collErr.injEq, CollectionErr.mk.injEq] at h
      obtain ⟨hP, hS, hE⟩ := h
      refine ⟨hP.symm, hS.symm, ?_⟩
      rw [← hE, length_filterMap_eq_countP, List.countP_map, List.countP_map]
      apply List.countP_congr
      intro d _
      cases hr : (applyOpsList d ops).2 with
      | ok u => simp [errIsOp, hr]
      | error e => cases e <;> simp [errIsOp, hr]
  · intro storeFn P S E h
    simp only [ThumbnailCollection.applyStoreKeep] at h
    split at h
    · simp at h
    · simp only [Except.error.injEq, ApplyError.collErr.injEq, CollectionErr.mk.injEq] at h
      obtain ⟨hP, hS, hE⟩ := h
      constructor
      · rw [← hS, length_filterMap_eq_countP, List.countP_map, List.countP_map]
        apply List.countP_congr
        intro nd _
        cases hr : (memberApplyStore storeFn ops nd.1 nd.2).2 with
        | ok u => simp [errIsStore, hr]
        | error e => cases e <;> simp [errIsStore, hr]
      · rw [← hE, length_filterMap_eq_countP, List.countP_map, List.countP_map]
        apply List.countP_congr
        intro nd _
        cases hr : (memberApplyStore storeFn ops nd.1 nd.2).2 with
        | ok u => simp [errIsOp, hr]
        | error e => cases e <;> simp [errIsOp, hr]

/-- The always-failing operation of the C9 witness collection. -/
def c9fail : Op Nat := ⟨7, fun _ => none⟩

/-- The C9 witness members: one whose file does not decode (a load error)
and one resident member that will fail with an operation error. -/
def c9images : List (ThumbnailData Nat) := [⟨"bad.png", .file none⟩, ⟨"ok.png", .image 0⟩]

/-- The C9 witness queue. -/
def c9ops : List (Op Nat) := [c9fail]

/-- The C9 witness store function: storing always succeeds. -/
def c9store : ThumbnailData Nat → Nat → Except FileError (List String) :=
  fun _ _ => .ok ["out.png"]

/-- Witness for C9: on a collection whose first member fails loading and
whose second fails its operation, both `apply` and `apply_store_keep` return
an aggregate whose lists account only for the operation failure — the
load-failing member has no entry. -/
theorem load_errors_dropped_witness :
    (([] : List String) = [] ∧ ([] : List FileError) = [] ∧
      [c9fail].length = c9images.countP (fun d => errIsOp (applyOpsList d c9ops).2)) ∧
    (([] : List FileError).length = c9images.enum.countP
        (fun nd => errIsStore (memberApplyStore c9store c9ops nd.1 nd.2).2) ∧
      [c9fail].length = c9images.enum.countP
        (fun nd => errIsOp (memberApplyStore c9store c9ops nd.1 nd.2).2)) :=
  ⟨(load_errors_dropped c9images c9ops).1 [] [] [c9fail] rfl,
   (load_errors_dropped c9images c9ops).2 c9store [] [] [c9fail] rfl⟩

/-- The failing first target item of the C3 counterexample. -/
def c3bad : TargetItem := ⟨"bad.png", .png⟩

/-- The would-succeed second target item of the C3 counterexample. -/
def c3good : TargetItem := ⟨"good.png", .png⟩

/-- The per-item step of the C3 counterexample: storing to `bad.png` fails,
storing anywhere else succeeds with the path written. -/
def c3step : TargetItem → Except FileError String :=
  fun it => if it.path = "bad.png" then .error .unknownErr else .ok it.path

/-- Counterexample to C3: on a `Target` listing two (format, path) pairs
whose first pair fails, `Target::store` executes only the first iteration —
the second pair is never attempted — and returns the single failure rather
than an accumulation of failures. -/
theorem target_store_aborts_on_failure :
    targetStore c3step [c3bad, c3good] = ([c3bad], .error .unknownErr) := rfl

/-- C3 as amended: `Target::store` attempts the (format, path) pairs in list
order and stops at the first pair whose processing fails, returning that
failure unchanged; the pairs after it are not attempted and failures are not
accumulated. -/
theorem target_store_stops_at_first_failure (stepFn : TargetItem → Except FileError String)
    (pre : List TargetItem) (it : TargetItem) (rest : List TargetItem) (e : FileError)
    (hpre : ∀ x ∈ pre, ∃ p, stepFn x = .ok p) (hit : stepFn it = .error e) :
    targetStore stepFn (pre ++ it :: rest) = (pre ++ [it], .error e) := by
  induction pre with
  | nil => simp [targetStore, hit]
  | cons a tl ih =>
    obtain ⟨p, hp⟩ := hpre a (List.mem_cons_self a tl)
    have h2 := ih (fun x hx => hpre x (List.mem_cons_of_mem a hx))
    simp [targetStore, hp, h2]

/-- Witness for the amended C3: a three-pair target whose middle pair fails
attempts exactly the first two pairs and returns the middle pair's error. -/
theorem target_store_stops_at_first_failure_witness :
    targetStore c3step ([c3good] ++ c3bad :: [c3good])
      = ([c3good] ++ [c3bad], .error .unknownErr) := by
  apply target_store_stops_at_first_failure
  · intro x hx
    have hx2 : x = c3good := by simpa using hx
    subst hx2
    exact ⟨"good.png", rfl⟩
  · rfl

/-- C7: the store functions use a destination path unchanged when its
extension already matches the declared format case-insensitively
(jpg/jpeg for Jpeg, png, tif/tiff for Tiff, bmp, gif), and otherwise replace
the extension by the format's canonical one (jpg, png, tiff, bmp, gif). -/
theorem store_ext_corrected_to_canonical (fmt : TargetFormat) (ext : Option String) :
    storeFixExt fmt ext = if claimExtMatches fmt ext then ext else some (canonicalExt fmt) := by
  cases fmt <;> cases ext <;>
    simp only [storeFixExt, claimExtMatches, claimAliases, canonicalExt, ensureExt,
      List.contains, List.any] <;>
    (try rfl) <;>
    split_ifs <;> simp_all

/-- C8: `compute_and_create_path` resolves the destination by exactly three
rules, in order: (1) an existing directory is joined with the source stem
with no directory creation; (2) otherwise a path whose string form ends with
a separator is created as a directory (with parents) and joined with the
source stem; (3) otherwise the path is an explicit file path — its parent
directory chain is created and the path itself is returned. -/
theorem compute_path_three_rules (isDir : String → Bool) (parent : String → Option String)
    (dst : String) (stem : Option String) :
    (isDir dst = true →
      computeAndCreatePath isDir parent dst stem = (joinStem dst (stem.getD "NAME_MISSING"), []))
    ∧ (isDir dst = false → (endsWithChar dst '/' || endsWithChar dst '\\') = true →
      computeAndCreatePath isDir parent dst stem = (joinStem dst (stem.getD "NAME_MISSING"), [dst]))
    ∧ (isDir dst = false → (endsWithChar dst '/' || endsWithChar dst '\\') = false →
      computeAndCreatePath isDir parent dst stem
        = (dst, match parent dst with | some p => [p] | none => [])) := by
  refine ⟨?_, ?_, ?_⟩
  · intro h1
    simp [computeAndCreatePath, h1]
  · intro h1 h2
    simp [computeAndCreatePath, h1, h2]
  · intro h1 h2
    simp [computeAndCreatePath, h1, h2]

/-- Witness for C8, rule 2: a not-yet-existing destination "out/" ending in
a separator is created as a directory and joined with the source stem
"photo". -/
theorem compute_path_three_rules_witness :
    computeAndCreatePath (fun _ => false) (fun _ => none) "out/" (some "photo")
      = ("out/photo", ["out/"]) := by
  have h := (compute_path_three_rules (fun _ => false) (fun _ => none) "out/" (some "photo")).2.1
    rfl rfl
  simpa [joinStem] using h

/-- C5: for `Crop::Ratio(wr, hr)` on an image of size `(W, H)` with
`W / H > wr / hr`, the crop rectangle computed by `CropOp::apply` keeps the
full height `H`, has width `⌊((wr / hr) / (W / H)) · W⌋ < W`, and is
horizontally centered: the left offset is `(W - width) / 2`, so left and
right margins agree up to one pixel. -/
theorem crop_ratio_centered_width (W H : Nat) (wr hr : ℚ) (x y w' h' : Nat)
    (hW : 0 < W) (hWmax : W < 2 ^ 32) (hH : 0 < H)
    (hwr : 0 < wr) (hhr : 0 < hr)
    (hrat : wr / hr < (W : ℚ) / (H : ℚ))
    (heq : cropRect (.ratio wr hr) W H = (x, y, w', h')) :
    h' = H ∧
    w' = Int.toNat (Int.floor (wr / hr / ((W : ℚ) / (H : ℚ)) * (W : ℚ))) ∧
    w' < W ∧
    x = (W - w') / 2 ∧
    W - w' - x ≤ x + 1 ∧ x ≤ (W - w' - x) + 1 := by
  have hcond : ¬((W : ℚ) / (H : ℚ) ≤ wr / hr) := not_le.mpr hrat
  simp only [cropRect, if_neg hcond, Prod.mk.injEq] at heq
  obtain ⟨hx, hy, hw, hh⟩ := heq
  have hWQ : (0 : ℚ) < (W : ℚ) := by exact_mod_cast hW
  have hHQ : (0 : ℚ) < (H : ℚ) := by exact_mod_cast hH
  have hOld : (0 : ℚ) < (W : ℚ) / (H : ℚ) := div_pos hWQ hHQ
  have hNew : (0 : ℚ) < wr / hr := div_pos hwr hhr
  have hlt1 : wr / hr / ((W : ℚ) / (H : ℚ)) < 1 := (div_lt_one hOld).mpr hrat
  have hqlt : wr / hr / ((W : ℚ) / (H : ℚ)) * (W : ℚ) < (W : ℚ) := by
    calc wr / hr / ((W : ℚ) / (H : ℚ)) * (W : ℚ) < 1 * (W : ℚ) :=
          mul_lt_mul_of_pos_right hlt1 hWQ
    _ = (W : ℚ) := one_mul _
  have hfl : Int.floor (wr / hr / ((W : ℚ) / (H : ℚ)) * (W : ℚ)) < (W : ℤ) :=
    Int.floor_lt.mpr (by exact_mod_cast hqlt)
  have hfl0 : 0 ≤ Int.floor (wr / hr / ((W : ℚ) / (H : ℚ)) * (W : ℚ)) :=
    Int.floor_nonneg.mpr (le_of_lt (mul_pos (div_pos hNew hOld) hWQ))
  have hmin : f32toU32 (wr / hr / ((W : ℚ) / (H : ℚ)) * (W : ℚ))
      = Int.toNat (Int.floor (wr / hr / ((W : ℚ) / (H : ℚ)) * (W : ℚ))) := by
    unfold f32toU32
    omega
  rw [hmin] at hw hx
  subst hw
  subst hh
  refine ⟨rfl, rfl, ?_, hx.symm, ?_, ?_⟩ <;> omega

/-- Witness for C5: an 800×500 image cropped to ratio 1:1 gets width
`⌊(1 / (800/500)) · 800⌋ = 500 < 800` at left offset `150 = (800-500)/2`. -/
theorem crop_ratio_centered_width_witness :
    (500 : Nat) = Int.toNat (Int.floor ((1 : ℚ) / 1 / ((800 : ℚ) / (500 : ℚ)) * (800 : ℚ)))
    ∧ (500 : Nat) < 800 ∧ (150 : Nat) = (800 - 500) / 2 := by
  have h := crop_ratio_centered_width 800 500 1 1 150 0 500 500 (by norm_num) (by norm_num)
    (by norm_num) (by norm_num) (by norm_num) (by norm_num)
    (by norm_num [cropRect, f32toU32]; decide)
  exact ⟨h.2.1, h.2.2.1, h.2.2.2.1⟩

/-- C6: for `Resize::Height(h)` (respectively `Resize::Width(w)`) on an
image of dimensions `(W, H)`, the missing dimension handed to the resize is
the aspect-ratio-derived value `⌊(W/H) · h⌋ + 1` (respectively
`⌊w / (W/H)⌋ + 1`), which is never zero. The bound hypotheses keep the
intermediate `as u32` cast below its saturation point. -/
theorem resize_derived_dimension (W H h w : Nat) (hW : 0 < W) (hH : 0 < H)
    (hbh : (W : ℚ) / (H : ℚ) * (h : ℚ) < 2 ^ 32 - 1)
    (hbw : (w : ℚ) / ((W : ℚ) / (H : ℚ)) < 2 ^ 32 - 1) :
    (resizeRequest (.height h) W H
        = (Int.toNat (Int.floor ((W : ℚ) / (H : ℚ) * (h : ℚ))) + 1, h)
      ∧ 0 < (resizeRequest (.height h) W H).1)
    ∧ (resizeRequest (.width w) W H
        = (w, Int.toNat (Int.floor ((w : ℚ) / ((W : ℚ) / (H : ℚ)))) + 1)
      ∧ 0 < (resizeRequest (.width w) W H).2) := by
  have e1 : f32toU32 ((W : ℚ) / (H : ℚ) * (h : ℚ))
      = Int.toNat (Int.floor ((W : ℚ) / (H : ℚ) * (h : ℚ))) := by
    unfold f32toU32
    have hlt : Int.floor ((W : ℚ) / (H : ℚ) * (h : ℚ)) < (2 ^ 32 - 1 : ℤ) :=
      Int.floor_lt.mpr (by push_cast; linarith)
    omega
  have e2 : f32toU32 ((w : ℚ) / ((W : ℚ) / (H : ℚ)))
      = Int.toNat (Int.floor ((w : ℚ) / ((W : ℚ) / (H : ℚ)))) := by
    unfold f32toU32
    have hlt : Int.floor ((w : ℚ) / ((W : ℚ) / (H : ℚ))) < (2 ^ 32 - 1 : ℤ) :=
      Int.floor_lt.mpr (by push_cast; linarith)
    omega
  refine ⟨⟨?_, ?_⟩, ⟨?_, ?_⟩⟩ <;> simp [resizeRequest, e1, e2]

/-- Witness for C6: on an 800×500 image, `Resize::Height(300)` requests
width `⌊(800/500)·300⌋ + 1 = 481` and `Resize::Width(400)` requests height
`⌊400/(800/500)⌋ + 1 = 251`. -/
theorem resize_derived_dimension_witness :
    resizeRequest (.height 300) 800 500 = (481, 300)
    ∧ resizeRequest (.width 400) 800 500 = (400, 251) := by
  obtain ⟨⟨h1, _⟩, ⟨h2, _⟩⟩ := resize_derived_dimension 800 500 300 400 (by norm_num)
    (by norm_num) (by norm_num) (by norm_num)
  rw [h1, h2]
  norm_num
  decide

/-- C2: evaluating `CombineOp::apply` at a fully opaque white 1×1 overlay
(`(255,255,255,255)`) placed at the in-canvas coordinate `(0,0)` of a 1×1
background pixel `(10,20,30,40)`: the result keeps the old blue channel `30`
— the blend loop is `for index in 0..2`, which writes only channels 0 and 1
— whereas the claimed per-channel blend `α·src[c] + (1-α)·dst[c]` yields
`255` for channel 2. -/
theorem combine_blue_channel_not_blended :
    combineApply ⟨1, 1, [[⟨255, 255, 255, 255⟩]]⟩ (.topLeft 0 0) ⟨1, 1, [[⟨10, 20, 30, 40⟩]]⟩
        = .ok ⟨1, 1, [[⟨255, 255, 30, 40⟩]]⟩
    ∧ blendChannel ⟨255, 255, 255, 255⟩ ⟨10, 20, 30, 40⟩ 2 = 255 := by
  constructor
  · norm_num [combineApply, combinePos, blendPixel, blendChannel, f32toU8, Pixel.chan,
      Pixel.setChan, ImageBuf.getPix, ImageBuf.setPix, List.range_succ]
    decide
  · norm_num [blendChannel, f32toU8, Pixel.chan]
    decide

end Thumbnailer
